import Mathlib

/-!
Verification development for the kafe minimizer adapter and contour tracer
(`kafe/core/minimizers/scipy_optimize_minimizer.py`).

The Python class `MinimizerScipyOptimize` is embedded shallowly:
its mutable attributes become the fields of `MinState`, each method becomes a
function from `MinState` (plus the method arguments) to its Python return value
paired with the post-state, and fallible methods return `Except PyError`.
The external numerical collaborators (`scipy.optimize.minimize`,
`numdifftools.Hessian`) are abstracted as oracle parameters: the embedding keeps
exactly the data flow of the Python code around those calls.
Floating point is modelled by `ℚ` (all constants in the source are exact
decimals) except for the covariance/error extraction, where the code takes a
real square root and the model uses `ℝ`.
-/

/-- The Python exception kinds that the methods of the class can raise.
`valueError` is what `list.index` raises for a missing element;
`typeError` is what raising a non-exception class (or subscripting `None`)
produces; `unknownParameterError` stands for the exception type named by the
documentation, which the source never defines nor raises. -/
inductive PyError where
  | valueError
  | typeError
  | notImplementedError
  | minimizerScipyOptimizeException
  | unknownParameterError
deriving DecidableEq, Repr

/-- An equality constraint `x[index] = target` handed to the SLSQP solver
(the Python code builds it as `dict(type='eq', fun=lambda x: x[index] - target)`). -/
abbrev EqConstraint := Nat × ℚ

/-- Oracle for `scipy.optimize.minimize(..., method="slsqp").fun`: given the
starting values, the bounds and the equality constraints, it returns the
minimum cost found by the external solver. -/
abbrev SolverOracle := List ℚ → Option (List (Option ℚ × Option ℚ)) → List EqConstraint → ℚ

/-- The mutable attributes of `MinimizerScipyOptimize` (lines 15-45 of the
source) that the claims under study read or write. -/
structure MinState where
  parNames : List String
  parVal : List ℚ
  parErr : List ℚ
  parBounds : Option (List (Option ℚ × Option ℚ))
  parFixed : List Bool
  parConstraints : List EqConstraint
  funcHandle : List ℚ → ℚ
  errDef : ℚ
  tol : ℚ
  fval : Option ℚ

/-- Position of a name in `self._par_names` (`self._par_names.index(name)`);
`none` where Python's `list.index` would raise `ValueError`. -/
def indexOfName (names : List String) (name : String) : Option Nat :=
  names.findIdx? (fun n => n = name)

/-- Embeds the `function_value` property (lines 96-100): when the cache
`self._fval` is `None` it evaluates the cost function at the current parameter
values and stores the result; it always returns the cached value. -/
def MinState.functionValue (s : MinState) : ℚ × MinState :=
  match s.fval with
  | some v => (v, s)
  | none =>
    let v := s.funcHandle s.parVal
    (v, { s with fval := some v })

/-- Embeds `fix` (lines 119-124): its first statement is
`raise NotImplementedError`, so the name lookup and the flag assignment that
follow it are unreachable. -/
def MinState.fix (_s : MinState) (_parameterName : String) : Except PyError MinState :=
  Except.error PyError.notImplementedError

/-- Embeds `release` (lines 130-133): its first statement is
`raise NotImplementedError`, so the flag assignment after it is unreachable. -/
def MinState.release (_s : MinState) (_parameterName : String) : Except PyError MinState :=
  Except.error PyError.notImplementedError

/-- Embeds `limit` (lines 139-144): the `assert len(parameter_bounds) == 2`
always passes for a pair; an unknown name makes `list.index` raise
`ValueError`; a `None` bounds attribute is replaced by an all-unbounded list
before the assignment. -/
def MinState.limit (s : MinState) (parameterName : String)
    (parameterBounds : Option ℚ × Option ℚ) : Except PyError MinState :=
  match indexOfName s.parNames parameterName with
  | none => Except.error PyError.valueError
  | some parId =>
    let bounds := match s.parBounds with
      | none => s.parNames.map (fun _ => ((none : Option ℚ), (none : Option ℚ)))
      | some bs => bs
    Except.ok { s with parBounds := some (bounds.set parId parameterBounds) }

/-- Embeds `unlimit` (lines 146-148): an unknown name makes `list.index` raise
`ValueError`; when `self._par_bounds` is still `None`, subscripting it raises
`TypeError`. -/
def MinState.unlimit (s : MinState) (parameterName : String) : Except PyError MinState :=
  match indexOfName s.parNames parameterName with
  | none => Except.error PyError.valueError
  | some parId =>
    match s.parBounds with
    | none => Except.error PyError.typeError
    | some bs => Except.ok { s with parBounds := some (bs.set parId (none, none)) }

/-- Embeds `_calc_fun_with_constraints` (lines 583-595): it concatenates the
stored constraint list with the additional ones, delegates to the external
SLSQP solver (the oracle) and returns `result.fun`; no attribute of the object
is assigned, so the post-state is the input state. -/
def MinState.calcFunWithConstraints (s : MinState) (solver : SolverOracle)
    (additionalConstraints : List EqConstraint) : ℚ × MinState :=
  (solver s.parVal s.parBounds (s.parConstraints ++ additionalConstraints), s)

/-- Embeds `np.linspace(start, stop, num, endpoint=True)` over `ℚ`:
`num` evenly spaced points from `start` to `stop` inclusive. -/
def linspace (start stop : ℚ) (num : Nat) : List ℚ :=
  (List.range num).map (fun (i : Nat) => start + (i : ℚ) * (stop - start) / ((num : ℚ) - 1))

/-- Embeds `profile` (lines 597-608): resolve the parameter name (`ValueError`
when unknown), sweep `bins` points over `[best - bound*err, best + bound*err]`,
compute `_y_offset` from the `function_value` property when `subtract_min` is
set (the property read can fill the `_fval` cache) and evaluate each sweep
point through `_calc_fun_with_constraints`.  As in the source, `_y_offset` is
never applied to the returned costs; the trailing
`self._func_wrapper_unpack_args(self._par_val)` call only re-evaluates the cost
function and assigns nothing. -/
def MinState.profile (s : MinState) (solver : SolverOracle) (parameterName : String)
    (bins : Nat) (bound : ℚ) (subtractMin : Bool) :
    Except PyError ((List ℚ × List ℚ) × MinState) :=
  match indexOfName s.parNames parameterName with
  | none => Except.error PyError.valueError
  | some parId =>
    let parErr := s.parErr.getD parId 0
    let parMin := s.parVal.getD parId 0
    let par := linspace (parMin - bound * parErr) (parMin + bound * parErr) bins
    let r := if subtractMin then s.functionValue else (0, s)
    let _yOffset := r.1
    let s1 := r.2
    let y := par.map (fun p => (s1.calcFunWithConstraints solver [(parId, p)]).1)
    Except.ok ((par, y), s1)

/-- One axis of the heuristic-grid contour (lines 304-307):
`np.linspace(-asf*sigma*err, asf*sigma*err, n, endpoint=True)` shifted by the
best-fit coordinate (`_x_values += _minimum[0]`). -/
def axisValues (center err sigma asf : ℚ) (n : Nat) : List ℚ :=
  (linspace (-asf * sigma * err) (asf * sigma * err) n).map (· + center)

/-- The part of `_contour_heuristic_grid`'s result (lines 288-321) that the
claims address: the grid dimension, both axis coordinate lists, and the log of
the initial coarse-grid solver evaluations. -/
structure GridSetup where
  targetPointsPerAxis : Nat
  xValues : List ℚ
  yValues : List ℚ
  initialEvaluations : List ((Nat × Nat) × ℚ)

/-- Embeds `_contour_heuristic_grid`, lines 288-321 (validation, grid
construction and the initial coarse-grid evaluation; the later refinement,
cropping and sqrt transform stages are not touched by the claims under study).
The source's validation executes `raise MinimizerScipyOptimize("...")` — the
minimizer class itself, not `MinimizerScipyOptimizeException` — and in Python
instantiating that class with a single string argument (and raising a
non-exception class) fails with `TypeError`, before any solver call.
`range(0, n, step)` is embedded as the multiples of `step` below `n`. -/
def MinState.contourHeuristicGrid (s : MinState) (solver : SolverOracle)
    (parameterName1 parameterName2 : String) (sigma : ℚ)
    (initialPoints iterations : Int) (areaScaleFactor : ℚ) :
    Except PyError GridSetup :=
  if initialPoints < 1 then Except.error PyError.typeError
  else if iterations < 0 then Except.error PyError.typeError
  else
    match indexOfName s.parNames parameterName1 with
    | none => Except.error PyError.valueError
    | some id1 =>
      match indexOfName s.parNames parameterName2 with
      | none => Except.error PyError.valueError
      | some id2 =>
        let initialPointsPerAxis := 1 + initialPoints.toNat * 2
        let n := 1 + initialPoints.toNat * 2 ^ (iterations.toNat + 1)
        let minimum := (s.parVal.getD id1 0, s.parVal.getD id2 0)
        let err := (s.parErr.getD id1 0, s.parErr.getD id2 0)
        let xValues := axisValues minimum.1 err.1 sigma areaScaleFactor n
        let yValues := axisValues minimum.2 err.2 sigma areaScaleFactor n
        let step := (n - 1) / (initialPointsPerAxis - 1)
        let idxs := (List.range n).filter (fun i => i % step == 0)
        let evals := (idxs.map (fun x => idxs.map (fun y =>
          ((x, y), solver s.parVal s.parBounds
            (s.parConstraints ++ [(id1, xValues.getD x 0), (id2, yValues.getD y 0)]))))).flatten
        Except.ok ⟨n, xValues, yValues, evals⟩

/-- Embeds lines 538-542 of `_contour_beacon`: the backtrack/append decision on
the chosen candidate.  `stretchedAbsAngle` is
`_stretched_absolute_angles[_min_index]`, the absolute stretched deflection
angle of the chosen ellipse point, in radians; `0.349111` rad is about 20.0
degrees.  On backtrack the last accepted contour point is discarded and the
candidate is not appended.  The source constant `0.349111` is written as the
exact fraction `349111 / 1000000`. -/
def beaconUpdateContour (stretchedAbsAngle : ℚ) (contourCoords : List (ℚ × ℚ))
    (newCoords : ℚ × ℚ) : List (ℚ × ℚ) :=
  if stretchedAbsAngle > 349111 / 1000000 then contourCoords.dropLast
  else contourCoords ++ [newCoords]

/-- Control skeleton of the `while(True)` walk loop of `_contour_beacon`
(lines 514-555).  The per-iteration numerical work (ellipse sampling,
candidate choice, curvature update, tangent recomputation) only influences
termination through the distance test
`np.sum((_coords - _start_point) ** 2) < _termination_distance`, which is
abstracted as the oracle `near`, indexed by the value of `_loops` at the test
(the counter starts at 0 and is incremented at the end of each iteration while
it is below 200).  The function returns the number of loop-body executions;
the `fuel` argument bounds the recursion and `none` would mean it ran out. -/
def beaconLoopCount (near : Nat → Bool) : Nat → Nat → Option Nat
  | 0, _ => none
  | fuel + 1, loops =>
    if near loops = true ∧ 10 < loops then some 1
    else if loops < 200 then (beaconLoopCount near fuel (loops + 1)).map (· + 1)
    else some 1

/-- The post-minimize cache written by lines 174-182 of `minimize()`. -/
structure MinimizeCache (n : Nat) where
  parVal : Fin n → ℝ
  hessianInv : Fin n → Fin n → ℝ
  parCovMat : Fin n → Fin n → ℝ
  parErr : Fin n → ℝ
  fval : ℝ

/-- Embeds lines 174-182 of `minimize()`: the optimizer result and the inverse
of the numerically estimated Hessian at the optimum (both produced by external
numerical code, hence taken as inputs) are stored; the covariance matrix is
assigned `self._hessian_inv * 2.0 * self._err_def` and the parameter errors
`np.sqrt(np.diag(self._par_cov_mat))`. -/
noncomputable def applyMinimizeResult (n : Nat) (errDef : ℝ) (optX : Fin n → ℝ)
    (optFun : ℝ) (hessianInvAtOpt : Fin n → Fin n → ℝ) : MinimizeCache n :=
  let cov : Fin n → Fin n → ℝ := fun i j => hessianInvAtOpt i j * 2 * errDef
  { parVal := optX, hessianInv := hessianInvAtOpt, parCovMat := cov,
    parErr := fun i => Real.sqrt (cov i i), fval := optFun }

/-- A concrete two-parameter minimizer state used by the witnesses and
counterexamples: parameters `a`, `b` at values `(0, 0)` with unit errors, no
bounds, nothing fixed, cost `f(a, b) = a^2 + b^2 + 5`, empty result cache. -/
def sampleState : MinState :=
  { parNames := ["a", "b"]
    parVal := [0, 0]
    parErr := [1, 1]
    parBounds := none
    parFixed := [false, false]
    parConstraints := []
    funcHandle := fun xs => xs.getD 0 0 * xs.getD 0 0 + xs.getD 1 0 * xs.getD 1 0 + 5
    errDef := 1
    tol := 1 / 1000000
    fval := none }

/-- A concrete solver oracle matching `sampleState`'s cost function: pinning
parameter 0 to `t` (and at most additionally parameter 1 to `u`) yields the
exact constrained minimum of `a^2 + b^2 + 5`. -/
def sampleSolver : SolverOracle := fun _ _ cs =>
  match cs with
  | [(0, t)] => t * t + 5
  | [(0, t), (1, u)] => t * t + u * u + 5
  | _ => 5

/-- C10: reading the `function_value` property before any `minimize()` call
does not raise: with an empty cache it evaluates the cost function at the
current (initial) parameter values, stores the result in `self._fval`, returns
it, and a subsequent read returns the same value from the cache without
changing the state further. -/
theorem function_value_first_read_caches (s : MinState) (h : s.fval = none) :
    s.functionValue.1 = s.funcHandle s.parVal ∧
    s.functionValue.2 = { s with fval := some (s.funcHandle s.parVal) } ∧
    s.functionValue.2.functionValue = (s.functionValue.1, s.functionValue.2) := by
  simp [MinState.functionValue, h]

/-- Witness for `function_value_first_read_caches` at the concrete state
`sampleState`, whose cache is empty. -/
theorem function_value_first_read_caches_witness :
    sampleState.functionValue.1 = sampleState.funcHandle sampleState.parVal ∧
    sampleState.functionValue.2
      = { sampleState with fval := some (sampleState.funcHandle sampleState.parVal) } ∧
    sampleState.functionValue.2.functionValue
      = (sampleState.functionValue.1, sampleState.functionValue.2) :=
  function_value_first_read_caches sampleState rfl

/-- C2 (the code at the failing input): `fix` and `release` raise
`NotImplementedError` as their first statement, so no fixed flag is ever
toggled through them; the claimed toggle behaviour is unreachable dead code. -/
theorem fix_release_raise_not_implemented :
    sampleState.fix "a" = Except.error PyError.notImplementedError ∧
    sampleState.release "a" = Except.error PyError.notImplementedError :=
  ⟨rfl, rfl⟩

/-- C3 (the code at the failing input): the `(value, cost)` sweep returned by
`profile` is identical whether `subtract_min` is true or false — the computed
`_y_offset` is never subtracted from the costs — and on `sampleState` (cost
`a^2 + b^2 + 5`, best fit `(0, 0)`) the best-fit function value that the claim
says should be subtracted is `5`, not `0`. -/
theorem profile_offset_never_applied :
    (∀ (s : MinState) (solver : SolverOracle) (name : String) (bins : Nat) (bound : ℚ),
      (s.profile solver name bins bound true).toOption.map (fun r => r.1)
        = (s.profile solver name bins bound false).toOption.map (fun r => r.1)) ∧
    sampleState.functionValue.1 = 5 ∧ (5 : ℚ) ≠ 0 := by
  refine ⟨fun s solver name bins bound => ?_, ?_, by norm_num⟩
  · cases h : indexOfName s.parNames name with
    | none => simp [MinState.profile, h]
    | some parId =>
      cases hf : s.fval with
      | none =>
        simp [MinState.profile, h, MinState.functionValue, hf,
          MinState.calcFunWithConstraints, Except.toOption]
      | some v =>
        simp [MinState.profile, h, MinState.functionValue, hf,
          MinState.calcFunWithConstraints, Except.toOption]
  · norm_num [MinState.functionValue, sampleState]

/-- C6 counterexample: at a stretched deflection angle of `1/2` radian — less
than 35 degrees, since `1/2 < 35·π/180` — the tracer discards the last
accepted point instead of appending the candidate, so the claimed ~35-degree
backtrack threshold is wrong (the source constant is `0.349111` rad ≈ 20°). -/
theorem beacon_backtracks_below_35_degrees :
    beaconUpdateContour (1/2) [(0, 0), (1, 0)] (2, 0) = [(0, 0)] ∧
    [((0 : ℚ), (0 : ℚ))] ≠ [((0 : ℚ), (0 : ℚ)), (1, 0), (2, 0)] ∧
    ((1 : ℝ)/2) < 35 * Real.pi / 180 := by
  refine ⟨?_, by simp, by nlinarith [Real.pi_gt_d6]⟩
  unfold beaconUpdateContour
  rw [if_pos (by norm_num)]
  rfl

/-- C6 amended: the backtrack threshold on the stretched deflection angle is
the source constant `0.349111` radians (about 20.0 degrees): above it the last
accepted contour point is discarded, at or below it the candidate is
appended. -/
theorem beacon_backtrack_threshold (a : ℚ) (coords : List (ℚ × ℚ)) (c : ℚ × ℚ) :
    ((349111 / 1000000 : ℚ) < a → beaconUpdateContour a coords c = coords.dropLast) ∧
    (a ≤ (349111 / 1000000 : ℚ) → beaconUpdateContour a coords c = coords ++ [c]) := by
  constructor
  · intro h
    unfold beaconUpdateContour
    rw [if_pos h]
  · intro h
    unfold beaconUpdateContour
    rw [if_neg (not_lt.mpr h)]

/-- Witness for `beacon_backtrack_threshold`: one angle above and one below
the threshold. -/
theorem beacon_backtrack_threshold_witness :
    beaconUpdateContour 1 [((0 : ℚ), (0 : ℚ))] (1, 0) = [] ∧
    beaconUpdateContour 0 [((0 : ℚ), (0 : ℚ))] (1, 0) = [(0, 0), (1, 0)] :=
  ⟨(beacon_backtrack_threshold 1 [(0, 0)] (1, 0)).1 (by norm_num),
   (beacon_backtrack_threshold 0 [(0, 0)] (1, 0)).2 (by norm_num)⟩

/-- C8 counterexample: `limit` on the unknown name `"nope"` raises the
`ValueError` that Python's `list.index` produces, which is not the
`UnknownParameterError` the claim names (no such exception type exists in the
source). -/
theorem limit_unknown_name_raises_value_error :
    sampleState.limit "nope" (none, some 1) = Except.error PyError.valueError ∧
    PyError.valueError ≠ PyError.unknownParameterError := by
  constructor
  · simp [MinState.limit, indexOfName, sampleState]
  · decide

/-- C8 amended: an unknown parameter name is never a silent no-op, but the
raised exceptions are not a dedicated `UnknownParameterError`: `limit`,
`unlimit`, `profile` and the (heuristic-grid) `contour` raise the `ValueError`
of `list.index`, while `fix` and `release` raise `NotImplementedError` before
even looking at the name. -/
theorem unknown_parameter_never_silent (s : MinState) (solver : SolverOracle)
    (name p2 : String) (b : Option ℚ × Option ℚ) (bins : Nat) (bound sigma asf : ℚ)
    (h : indexOfName s.parNames name = none) :
    s.limit name b = Except.error PyError.valueError ∧
    s.unlimit name = Except.error PyError.valueError ∧
    s.profile solver name bins bound true = Except.error PyError.valueError ∧
    s.contourHeuristicGrid solver name p2 sigma 1 5 asf = Except.error PyError.valueError ∧
    s.fix name = Except.error PyError.notImplementedError ∧
    s.release name = Except.error PyError.notImplementedError := by
  refine ⟨?_, ?_, ?_, ?_, rfl, rfl⟩
  · simp [MinState.limit, h]
  · simp [MinState.unlimit, h]
  · simp [MinState.profile, h]
  · simp [MinState.contourHeuristicGrid, h]

/-- Witness for `unknown_parameter_never_silent` at `sampleState` and the
concrete unknown name `"nope"`. -/
theorem unknown_parameter_never_silent_witness :
    sampleState.limit "nope" (none, none) = Except.error PyError.valueError ∧
    sampleState.unlimit "nope" = Except.error PyError.valueError ∧
    sampleState.profile sampleSolver "nope" 3 1 true = Except.error PyError.valueError ∧
    sampleState.contourHeuristicGrid sampleSolver "nope" "b" 1 1 5 (3/2)
      = Except.error PyError.valueError ∧
    sampleState.fix "nope" = Except.error PyError.notImplementedError ∧
    sampleState.release "nope" = Except.error PyError.notImplementedError :=
  unknown_parameter_never_silent sampleState sampleSolver "nope" "b" (none, none) 3 1 1 (3/2)
    (by decide)

/-- C9 counterexample: `profile` with `subtract_min=True` on a state whose
function-value cache is empty returns a state whose cache has been filled
(with the cost `5` at the initial values), so it does mutate stored minimizer
state. -/
theorem profile_mutates_fval_cache :
    (sampleState.profile sampleSolver "a" 3 1 true).toOption.map (fun r => r.2.fval)
      = some (some 5) ∧
    sampleState.fval = none := by
  constructor
  · norm_num [MinState.profile, indexOfName, sampleState, MinState.functionValue,
      MinState.calcFunWithConstraints, Except.toOption]
  · rfl

/-- C9 amended: `_calc_fun_with_constraints` leaves the minimizer state
unchanged, and `profile` leaves every stored field unchanged except that, with
`subtract_min` true, reading the `function_value` property fills the
function-value cache when it is empty; nothing else is mutated. -/
theorem calc_fun_and_profile_frame (s : MinState) (solver : SolverOracle)
    (cs : List EqConstraint) (name : String) (bins : Nat) (bound : ℚ) (sm : Bool)
    (r : List ℚ × List ℚ) (s' : MinState)
    (hp : s.profile solver name bins bound sm = Except.ok (r, s')) :
    (s.calcFunWithConstraints solver cs).2 = s ∧
    s'.parNames = s.parNames ∧ s'.parVal = s.parVal ∧ s'.parErr = s.parErr ∧
    s'.parBounds = s.parBounds ∧ s'.parFixed = s.parFixed ∧
    s'.parConstraints = s.parConstraints ∧ s'.funcHandle = s.funcHandle ∧
    s'.errDef = s.errDef ∧ s'.tol = s.tol ∧
    s'.fval = (if sm then some s.functionValue.1 else s.fval) := by
  refine ⟨rfl, ?_⟩
  cases h : indexOfName s.parNames name with
  | none => rw [MinState.profile, h] at hp; exact absurd hp (by simp)
  | some parId =>
    rw [MinState.profile, h] at hp
    simp only [Except.ok.injEq, Prod.mk.injEq] at hp
    obtain ⟨-, hs⟩ := hp
    subst hs
    cases sm with
    | false => simp
    | true =>
      cases hf : s.fval with
      | none => simp [MinState.functionValue, hf]
      | some v => simp [MinState.functionValue, hf]

/-- Witness for `calc_fun_and_profile_frame`: a zero-bin profile call with
`subtract_min` false on `sampleState` returns the state unchanged. -/
theorem calc_fun_and_profile_frame_witness :
    (sampleState.calcFunWithConstraints sampleSolver []).2 = sampleState ∧
    sampleState.parNames = sampleState.parNames ∧
    sampleState.parVal = sampleState.parVal ∧
    sampleState.parErr = sampleState.parErr ∧
    sampleState.parBounds = sampleState.parBounds ∧
    sampleState.parFixed = sampleState.parFixed ∧
    sampleState.parConstraints = sampleState.parConstraints ∧
    sampleState.funcHandle = sampleState.funcHandle ∧
    sampleState.errDef = sampleState.errDef ∧
    sampleState.tol = sampleState.tol ∧
    sampleState.fval = (if false then some sampleState.functionValue.1
      else sampleState.fval) :=
  calc_fun_and_profile_frame sampleState sampleSolver [] "a" 0 1 false ([], [])
    sampleState rfl

/-- C1: after a successful `minimize()` the stored covariance matrix is
`2 × errordef × (inverse numerically estimated Hessian)` entrywise, and each
stored parameter error is the square root of the corresponding diagonal entry
of that covariance matrix, for every positive errordef. -/
theorem covariance_and_errors_from_hessian (n : Nat) (errDef : ℝ)
    (optX : Fin n → ℝ) (optFun : ℝ) (hinv : Fin n → Fin n → ℝ)
    (_h : 0 < errDef) :
    (∀ i j, (applyMinimizeResult n errDef optX optFun hinv).parCovMat i j
        = 2 * errDef * hinv i j) ∧
    (∀ i, (applyMinimizeResult n errDef optX optFun hinv).parErr i
        = Real.sqrt ((applyMinimizeResult n errDef optX optFun hinv).parCovMat i i)) :=
  ⟨fun i j => by simp only [applyMinimizeResult]; ring, fun i => rfl⟩

/-- Witness for `covariance_and_errors_from_hessian` at a one-parameter
problem with errordef 1 and inverse Hessian `[[1]]`. -/
theorem covariance_and_errors_from_hessian_witness :
    (∀ i j, (applyMinimizeResult 1 1 (fun _ => 0) 5 (fun _ _ => 1)).parCovMat i j
        = 2 * 1 * (fun _ _ => (1 : ℝ)) i j) ∧
    (∀ i, (applyMinimizeResult 1 1 (fun _ => 0) 5 (fun _ _ => 1)).parErr i
        = Real.sqrt ((applyMinimizeResult 1 1 (fun _ => 0) 5 (fun _ _ => 1)).parCovMat i i)) :=
  covariance_and_errors_from_hessian 1 1 (fun _ => 0) 5 (fun _ _ => 1) one_pos

/-- C4 (the code at the failing inputs): for every solver oracle — so without
a single cost evaluation — `_contour_heuristic_grid` with `initial_points=0`
or with `iterations=-1` fails, but with the `TypeError` produced by
`raise MinimizerScipyOptimize(...)` (the minimizer class, wrongly raised in
place of the library exception `MinimizerScipyOptimizeException`). -/
theorem heuristic_grid_invalid_input_type_error :
    (∀ solver : SolverOracle, sampleState.contourHeuristicGrid solver "a" "b" 1 0 5 (3/2)
      = Except.error PyError.typeError) ∧
    (∀ solver : SolverOracle, sampleState.contourHeuristicGrid solver "a" "b" 1 1 (-1) (3/2)
      = Except.error PyError.typeError) ∧
    PyError.typeError ≠ PyError.minimizerScipyOptimizeException :=
  ⟨fun _ => rfl, fun _ => rfl, by decide⟩

theorem linspace_getElem (a b : ℚ) (n i : Nat) (h : i < n) :
    (linspace a b n)[i]? = some (a + (i : ℚ) * (b - a) / ((n : ℚ) - 1)) := by
  rw [linspace, List.getElem?_map, List.getElem?_range h]
  rfl

theorem linspace_length (a b : ℚ) (n : Nat) : (linspace a b n).length = n := by
  rw [linspace, List.length_map, List.length_range]

/-- Endpoint and midpoint values of one heuristic-grid axis with an odd point
count: the axis has `n` points, starts at `center - asf*sigma*err`, ends at
`center + asf*sigma*err` and its middle point is the best-fit coordinate. -/
theorem axisValues_spec (center err sigma asf : ℚ) (n : Nat)
    (h3 : 3 ≤ n) (hdvd : 2 ∣ n - 1) :
    (axisValues center err sigma asf n).length = n ∧
    (axisValues center err sigma asf n)[0]? = some (center - asf * sigma * err) ∧
    (axisValues center err sigma asf n)[n - 1]?
      = some (center + asf * sigma * err) ∧
    (axisValues center err sigma asf n)[(n - 1) / 2]? = some center := by
  have hN1 : 1 ≤ n := by omega
  have hcast : ((n : ℚ) - 1) ≠ 0 := by
    have h3q : (3 : ℚ) ≤ (n : ℚ) := by exact_mod_cast h3
    linarith
  refine ⟨by rw [axisValues, List.length_map, linspace_length], ?_, ?_, ?_⟩
  · rw [axisValues, List.getElem?_map, linspace_getElem _ _ _ _ (by omega)]
    simp only [Option.map_some']
    congr 1
    push_cast
    ring
  · rw [axisValues, List.getElem?_map, linspace_getElem _ _ _ _ (by omega)]
    simp only [Option.map_some']
    congr 1
    rw [Nat.cast_sub hN1]
    push_cast
    field_simp
    ring
  · rw [axisValues, List.getElem?_map, linspace_getElem _ _ _ _ (by omega)]
    simp only [Option.map_some']
    congr 1
    rw [Nat.cast_div hdvd (by norm_num : (2 : ℚ) ≠ 0), Nat.cast_sub hN1]
    push_cast
    field_simp
    ring

/-- C5 counterexample: with `initial_points=1` and `iterations=0` the grid has
`1 + 1·2^(0+1) = 3` points per axis, not the `1 + 1·2·2^(0+1) = 5` the claim's
formula gives. -/
theorem heuristic_grid_claimed_size_wrong :
    (sampleState.contourHeuristicGrid sampleSolver "a" "b" 1 1 0 (3/2)).toOption.map
      GridSetup.targetPointsPerAxis = some 3 ∧
    (3 : Nat) ≠ 1 + 1 * 2 * 2 ^ (0 + 1) :=
  ⟨rfl, by decide⟩

/-- C5 amended: for every `initial_points ≥ 1` and `iterations ≥ 0` (and valid
parameter names) the heuristic-grid tracer builds a square grid of
`1 + initial_points·2^(iterations+1)` points per axis, centered on the
best-fit point (the middle point of each axis is the best-fit coordinate),
spanning ± `area_scale_factor·sigma·error` on each axis. -/
theorem heuristic_grid_dimensions (s : MinState) (solver : SolverOracle)
    (p1 p2 : String) (sigma asf : ℚ) (ip it : Int) (i1 i2 : Nat)
    (hip : 1 ≤ ip) (hit : 0 ≤ it)
    (h1 : indexOfName s.parNames p1 = some i1)
    (h2 : indexOfName s.parNames p2 = some i2) :
    ∃ g : GridSetup,
      s.contourHeuristicGrid solver p1 p2 sigma ip it asf = Except.ok g ∧
      g.targetPointsPerAxis = 1 + ip.toNat * 2 ^ (it.toNat + 1) ∧
      g.xValues.length = g.targetPointsPerAxis ∧
      g.yValues.length = g.targetPointsPerAxis ∧
      g.xValues[0]? = some (s.parVal.getD i1 0 - asf * sigma * s.parErr.getD i1 0) ∧
      g.xValues[g.targetPointsPerAxis - 1]?
        = some (s.parVal.getD i1 0 + asf * sigma * s.parErr.getD i1 0) ∧
      g.xValues[(g.targetPointsPerAxis - 1) / 2]? = some (s.parVal.getD i1 0) ∧
      g.yValues[0]? = some (s.parVal.getD i2 0 - asf * sigma * s.parErr.getD i2 0) ∧
      g.yValues[g.targetPointsPerAxis - 1]?
        = some (s.parVal.getD i2 0 + asf * sigma * s.parErr.getD i2 0) ∧
      g.yValues[(g.targetPointsPerAxis - 1) / 2]? = some (s.parVal.getD i2 0) := by
  have hA : 1 ≤ ip.toNat := by omega
  have h2pow : 2 ≤ 2 ^ (it.toNat + 1) := by
    calc (2 : Nat) = 2 ^ 1 := rfl
    _ ≤ 2 ^ (it.toNat + 1) := Nat.pow_le_pow_right (by norm_num) (by omega)
  have hN3 : 3 ≤ 1 + ip.toNat * 2 ^ (it.toNat + 1) := by
    have := Nat.mul_le_mul hA h2pow
    omega
  have hdvd : 2 ∣ (1 + ip.toNat * 2 ^ (it.toNat + 1)) - 1 := by
    have he : (1 + ip.toNat * 2 ^ (it.toNat + 1)) - 1
        = ip.toNat * 2 ^ (it.toNat + 1) := by omega
    rw [he, pow_succ]
    exact ⟨ip.toNat * 2 ^ it.toNat, by ring⟩
  obtain ⟨hxlen, hx0, hxlast, hxmid⟩ :=
    axisValues_spec (s.parVal.getD i1 0) (s.parErr.getD i1 0) sigma asf
      (1 + ip.toNat * 2 ^ (it.toNat + 1)) hN3 hdvd
  obtain ⟨hylen, hy0, hylast, hymid⟩ :=
    axisValues_spec (s.parVal.getD i2 0) (s.parErr.getD i2 0) sigma asf
      (1 + ip.toNat * 2 ^ (it.toNat + 1)) hN3 hdvd
  unfold MinState.contourHeuristicGrid
  rw [if_neg (by omega), if_neg (by omega), h1, h2]
  exact ⟨_, rfl, rfl, hxlen, hylen, hx0, hxlast, hxmid, hy0, hylast, hymid⟩

/-- Witness for `heuristic_grid_dimensions` at `sampleState` with
`initial_points=1`, `iterations=0`: a 3-point-per-axis grid centered on the
best fit. -/
theorem heuristic_grid_dimensions_witness :
    ∃ g : GridSetup,
      sampleState.contourHeuristicGrid sampleSolver "a" "b" 1 1 0 (3/2) = Except.ok g ∧
      g.targetPointsPerAxis = 1 + (1 : Int).toNat * 2 ^ ((0 : Int).toNat + 1) ∧
      g.xValues.length = g.targetPointsPerAxis ∧
      g.yValues.length = g.targetPointsPerAxis ∧
      g.xValues[0]?
        = some (sampleState.parVal.getD 0 0 - 3/2 * 1 * sampleState.parErr.getD 0 0) ∧
      g.xValues[g.targetPointsPerAxis - 1]?
        = some (sampleState.parVal.getD 0 0 + 3/2 * 1 * sampleState.parErr.getD 0 0) ∧
      g.xValues[(g.targetPointsPerAxis - 1) / 2]? = some (sampleState.parVal.getD 0 0) ∧
      g.yValues[0]?
        = some (sampleState.parVal.getD 1 0 - 3/2 * 1 * sampleState.parErr.getD 1 0) ∧
      g.yValues[g.targetPointsPerAxis - 1]?
        = some (sampleState.parVal.getD 1 0 + 3/2 * 1 * sampleState.parErr.getD 1 0) ∧
      g.yValues[(g.targetPointsPerAxis - 1) / 2]? = some (sampleState.parVal.getD 1 0) :=
  heuristic_grid_dimensions sampleState sampleSolver "a" "b" 1 (3/2) 1 0 0 1
    (by decide) (by decide) (by decide) (by decide)

theorem beaconLoopCount_hit (near : Nat → Bool) (fuel loops : Nat)
    (hn : near loops = true) (h10 : 10 < loops) :
    beaconLoopCount near (fuel + 1) loops = some 1 := by
  unfold beaconLoopCount
  rw [if_pos ⟨hn, h10⟩]

theorem beaconLoopCount_miss (near : Nat → Bool) (fuel loops : Nat)
    (h : ¬(near loops = true ∧ 10 < loops)) (hlt : loops < 200) :
    beaconLoopCount near (fuel + 1) loops
      = (beaconLoopCount near fuel (loops + 1)).map (· + 1) := by
  show (if near loops = true ∧ 10 < loops then some 1
    else if loops < 200 then (beaconLoopCount near fuel (loops + 1)).map (· + 1)
    else some 1) = (beaconLoopCount near fuel (loops + 1)).map (· + 1)
  rw [if_neg h, if_pos hlt]

theorem beaconLoopCount_end (near : Nat → Bool) (fuel loops : Nat)
    (h : ¬(near loops = true ∧ 10 < loops)) (hge : ¬ loops < 200) :
    beaconLoopCount near (fuel + 1) loops = some 1 := by
  unfold beaconLoopCount
  rw [if_neg h, if_neg hge]

/-- With enough fuel the walk loop always finishes, executing between 1 and
`201 - loops` iterations from loop counter `loops`. -/
theorem beaconLoopCount_total (near : Nat → Bool) :
    ∀ fuel loops, loops ≤ 200 → 201 - loops ≤ fuel →
      ∃ k, beaconLoopCount near fuel loops = some k ∧ 1 ≤ k ∧ k ≤ 201 - loops := by
  intro fuel
  induction fuel with
  | zero => intro loops h1 h2; omega
  | succ fuel ih =>
    intro loops h1 h2
    by_cases hhit : near loops = true ∧ 10 < loops
    · exact ⟨1, beaconLoopCount_hit near fuel loops hhit.1 hhit.2, le_refl 1, by omega⟩
    · by_cases hlt : loops < 200
      · obtain ⟨k, hk, hk1, hk2⟩ := ih (loops + 1) (by omega) (by omega)
        refine ⟨k + 1, ?_, by omega, by omega⟩
        rw [beaconLoopCount_miss near fuel loops hhit hlt, hk]
        rfl
      · exact ⟨1, beaconLoopCount_end near fuel loops hhit hlt, le_refl 1, by omega⟩

/-- Starting at a loop counter of at most 11, the loop body runs at least
`12 - loops` times: the earliest distance-criterion exit is when the counter
exceeds 10, which from 0 means the 12th iteration. -/
theorem beaconLoopCount_min (near : Nat → Bool) :
    ∀ fuel loops k, loops ≤ 11 → beaconLoopCount near fuel loops = some k →
      12 ≤ k + loops := by
  intro fuel
  induction fuel with
  | zero => intro loops k _ h; simp [beaconLoopCount] at h
  | succ fuel ih =>
    intro loops k hl hk
    by_cases hhit : near loops = true ∧ 10 < loops
    · rw [beaconLoopCount_hit near fuel loops hhit.1 hhit.2] at hk
      have h1 := Option.some.inj hk
      have h10 := hhit.2
      omega
    · have hlt : loops < 200 := by omega
      rw [beaconLoopCount_miss near fuel loops hhit hlt] at hk
      cases hrec : beaconLoopCount near fuel (loops + 1) with
      | none => rw [hrec] at hk; simp at hk
      | some j =>
        rw [hrec] at hk
        simp only [Option.map_some'] at hk
        have hkj := Option.some.inj hk
        by_cases h11 : loops + 1 ≤ 11
        · have := ih (loops + 1) j h11 hrec
          omega
        · omega

/-- When the first loop counter `L > 10` at which the distance criterion holds
satisfies `L ≤ 200`, the loop stops exactly there: from counter `loops ≤ L` it
runs `L + 1 - loops` bodies. -/
theorem beaconLoopCount_first_hit (near : Nat → Bool) :
    ∀ fuel L loops, loops ≤ L → L ≤ 200 → 10 < L → near L = true →
      (∀ j, 10 < j → j < L → near j = false) → L - loops < fuel →
      beaconLoopCount near fuel loops = some (L + 1 - loops) := by
  intro fuel
  induction fuel with
  | zero => intro L loops _ _ _ _ _ hfuel; omega
  | succ fuel ih =>
    intro L loops hlL hL200 hL10 hnear hprior hfuel
    by_cases heq : loops = L
    · subst heq
      rw [beaconLoopCount_hit near fuel loops hnear hL10]
      congr 1
      omega
    · have hlt : loops < L := by omega
      have hmiss : ¬(near loops = true ∧ 10 < loops) := by
        rintro ⟨hn, h10⟩
        have hf := hprior loops h10 hlt
        rw [hf] at hn
        exact Bool.false_ne_true hn
      rw [beaconLoopCount_miss near fuel loops hmiss (by omega)]
      rw [ih L (loops + 1) (by omega) hL200 hL10 hnear hprior (by omega)]
      simp only [Option.map_some']
      congr 1
      omega

set_option maxRecDepth 4000 in
/-- C7 counterexample: the loop-body counts contradict the claimed step
bounds.  With the distance criterion satisfied from the start the walk still
executes 12 loop bodies (the code requires the counter to exceed 10, so the
earliest stop is the 12th body, not the 10th or 11th that "as soon as ...
after at least 10 steps" allows), and with the criterion never satisfied it
executes 201 bodies, exceeding the claimed safety bound of 200. -/
theorem beacon_loop_claimed_bounds_wrong :
    beaconLoopCount (fun _ => true) 202 0 = some 12 ∧
    beaconLoopCount (fun _ => false) 202 0 = some 201 ∧
    201 > 200 ∧ (12 : Nat) ≠ 11 ∧ (12 : Nat) ≠ 10 := by
  refine ⟨?_, ?_, by decide, by decide, by decide⟩
  · decide
  · decide

/-- C7 amended: the walk loop always terminates; from a zero counter it
executes between 12 and 201 loop bodies, and when `L` is the first counter
value above 10 at which the walker is within the termination distance of the
start (with `L ≤ 200`), it stops after exactly `L + 1` bodies.  The safety
bound alone allows 201 bodies (the counter stops increasing at 200, and the
body in which it reaches 200 is followed by one final body that breaks). -/
theorem beacon_loop_terminates_within_201 (near : Nat → Bool) :
    (∃ k, beaconLoopCount near 202 0 = some k ∧ 12 ≤ k ∧ k ≤ 201) ∧
    (∀ L, 10 < L → L ≤ 200 → near L = true →
      (∀ j, 10 < j → j < L → near j = false) →
      beaconLoopCount near 202 0 = some (L + 1)) := by
  constructor
  · obtain ⟨k, hk, h1, h2⟩ := beaconLoopCount_total near 202 0 (by omega) (by omega)
    have h12 := beaconLoopCount_min near 202 0 k (by omega) hk
    exact ⟨k, hk, by omega, by omega⟩
  · intro L h10 h200 hnear hprior
    have h := beaconLoopCount_first_hit near 202 L 0 (by omega) h200 h10 hnear hprior
      (by omega)
    simpa using h

/-- Witness for `beacon_loop_terminates_within_201`: a walker that is first
within the termination distance at counter 15 stops after 16 loop bodies. -/
theorem beacon_loop_terminates_within_201_witness :
    beaconLoopCount (fun k => decide (k = 15)) 202 0 = some 16 :=
  (beacon_loop_terminates_within_201 (fun k => decide (k = 15))).2 15 (by decide)
    (by decide) (by decide)
    (fun j _ hj => decide_eq_false_iff_not.mpr (Nat.ne_of_lt hj))
